import Mathlib

/-!
# Verification of the Instant-RAG ingestion/retrieval pipeline

Shallow embedding of the core pipeline of the `instant-rag-backend`
repository (services/chat_service.py, services/document_processor.py,
services/document_service.py, api/routes/project.py), together with
theorems settling the specification claims about it.

Conventions: Python `None`-able values become `Option`; Python lists become
`List`; the PostgreSQL rows of `rag_chunks` become the structure `RagChunk`;
floating-point embedding vectors are modelled over `ℝ` for the vector math
and over `ℚ` where concrete evaluation is needed.
-/

namespace InstantRag

/-! ## Data model -/

/-- A row of the `rag_chunks` table (models/rag_chunk.py), restricted to the
fields read by `ChatService.process_rag_query`.  `embedding` is nullable
(null exactly for screenshot/image-only chunks); `page_number` is nullable;
`images_base64` is the nullable JSON payload stored as a string. -/
structure RagChunk where
  project_id : String
  document_id : String
  chunk_id : String
  chunk_text : String
  embedding : Option (List ℚ)
  page_number : Option Nat
  doc_name : String
  source_type : String
  images_base64 : Option String
deriving Repr, DecidableEq

/-- A citation record as assembled by `process_rag_query`
(chat_service.py lines 279-314): text citations carry no image payload,
image citations carry `images_base64`. -/
structure RagCitation where
  chunk_id : String
  doc_name : String
  page_number : Option Nat
  source_type : String
  images_base64 : Option String
deriving Repr, DecidableEq

/-! ## Token-budgeted context assembly (chat_service.py lines 273-299) -/

/-- chat_service.py line 288: the chunk text with its inline citation
marker, `chunk.chunk_text + f"[CITATION::CHUNK_ID: {chunk.chunk_id}]"`. -/
def chunkTxtWithCitations (c : RagChunk) : String :=
  c.chunk_text ++ "[CITATION::CHUNK_ID: " ++ c.chunk_id ++ "]"

/-- chat_service.py line 291: estimated token count of a context part,
`len(chunk_txt_with_citations) // 4`. -/
def estTokens (s : String) : Nat :=
  s.length / 4

/-- The citation dictionary appended for a text chunk
(chat_service.py lines 279-286): no `images_base64` key. -/
def textCitationOf (c : RagChunk) : RagCitation :=
  { chunk_id := c.chunk_id
    doc_name := c.doc_name
    page_number := c.page_number
    source_type := c.source_type
    images_base64 := none }

/-- The text-chunk loop of `process_rag_query`
(chat_service.py lines 276-299).  State: `totalTokens` is the running
`total_tokens`.  For each chunk the citation is appended unconditionally;
the tagged text is appended to `context_parts` (and the running total
increased) only when `total_tokens + chunk_tokens > max_tokens` fails,
otherwise the chunk is skipped (`continue`) — never truncated.
Returns `(context_parts, citations, total_tokens)`. -/
def processTextChunks (maxTokens : Nat) (totalTokens : Nat) :
    List RagChunk → List String × List RagCitation × Nat
  | [] => ([], [], totalTokens)
  | c :: rest =>
    let s := chunkTxtWithCitations c
    let chunkTokens := estTokens s
    if totalTokens + chunkTokens > maxTokens then
      let r := processTextChunks maxTokens totalTokens rest
      (r.1, textCitationOf c :: r.2.1, r.2.2)
    else
      let r := processTextChunks maxTokens (totalTokens + chunkTokens) rest
      (s :: r.1, textCitationOf c :: r.2.1, r.2.2)

/-- Sum of estimated token counts of a list of context parts. -/
def sumEstTokens (parts : List String) : Nat :=
  (parts.map estTokens).sum

/-! ## Retrieval: similarity query, page-correlated image query, citations
(chat_service.py lines 205-314) -/

/-- Insert into a list sorted by ascending `dist`, keeping equal-distance
elements in their original (store) order.  Models the deterministic
`ORDER BY cosine_distance` of the chunk store. -/
def insertByDist (dist : RagChunk → ℚ) (c : RagChunk) :
    List RagChunk → List RagChunk
  | [] => [c]
  | x :: xs =>
    if dist x ≤ dist c then x :: insertByDist dist c xs
    else c :: x :: xs

/-- Stable sort by ascending `dist` (the store's `ORDER BY` over cosine
distance; the distance function itself is a parameter, the similarity
metric living in the external vector index). -/
def sortByDist (dist : RagChunk → ℚ) : List RagChunk → List RagChunk
  | [] => []
  | x :: xs => insertByDist dist x (sortByDist dist xs)

/-- chat_service.py lines 218-226: the similarity query — chunks of the
project whose embedding is not null, ordered by ascending cosine distance,
limited to `top_k`. -/
def queryTextChunks (store : List RagChunk) (projectId : String)
    (dist : RagChunk → ℚ) (topK : Nat) : List RagChunk :=
  (sortByDist dist
    (store.filter
      (fun c => c.project_id == projectId && c.embedding.isSome))).take topK

/-- SQL equality on a nullable integer column: `page_number = :x` is never
satisfied when either side is NULL. -/
def sqlEqOptNat : Option Nat → Option Nat → Bool
  | some a, some b => a == b
  | _, _ => false

/-- chat_service.py lines 236-249: the second query — chunks of the project
whose embedding IS null, matching any `(document_id, page_number)` pair of
the text hits (the OR of per-pair conjunctions). -/
def queryImageChunks (store : List RagChunk) (projectId : String)
    (pairs : List (String × Option Nat)) : List RagChunk :=
  store.filter
    (fun c => c.project_id == projectId && c.embedding.isNone &&
      pairs.any (fun p => c.document_id == p.1 && sqlEqOptNat c.page_number p.2))

/-- Python truthiness of the nullable `images_base64` string
(chat_service.py line 305: `if chunk.images_base64:`). -/
def pyTruthy : Option String → Bool
  | none => false
  | some s => !(s == "")

/-- The citation dictionary appended for an image chunk
(chat_service.py lines 306-312): carries the image payload. -/
def imageCitationOf (c : RagChunk) : RagCitation :=
  { chunk_id := c.chunk_id
    doc_name := c.doc_name
    page_number := c.page_number
    source_type := c.source_type
    images_base64 := c.images_base64 }

/-- chat_service.py lines 302-314: image chunks contribute a citation
(to both `citations` and `img_citations`) only when their `images_base64`
is truthy; they are never added to the context. -/
def imageCitations (imageChunks : List RagChunk) : List RagCitation :=
  imageChunks.filterMap
    (fun c => if pyTruthy c.images_base64 then some (imageCitationOf c) else none)

/-- chat_service.py lines 256-258: the fixed answer returned when the
project has no chunks at all. -/
def noDocumentsAnswer : String :=
  "I don't have any relevant information to answer your question. Please upload some documents first."

/-- Outcome of the retrieval phase of `process_rag_query`:
`earlyAnswer` is the canned no-documents reply of the short-circuit branch
(in which case no language-model call happens, `llmCalled = false`);
otherwise the assembled context parts, citation lists and running token
total are produced and the pipeline proceeds to the model call. -/
structure RetrievalResult where
  earlyAnswer : Option String
  citations : List RagCitation
  imgCitations : List RagCitation
  contextParts : List String
  totalTokens : Nat
  llmCalled : Bool
deriving Repr, DecidableEq

/-- The retrieval phase of `ChatService.process_rag_query`
(chat_service.py lines 205-314): similarity query, `(document_id,
page_number)` pair collection guarded by `if page_numbers:`, null-embedding
image query, empty-result short-circuit, then the text-chunk context loop
followed by the image-citation loop. -/
def processRagQueryRetrieval (store : List RagChunk) (projectId : String)
    (dist : RagChunk → ℚ) (topK maxTokens : Nat) : RetrievalResult :=
  let textChunks := queryTextChunks store projectId dist topK
  let pageNumbers := textChunks.map (fun c => (c.document_id, c.page_number))
  let imageChunks :=
    if pageNumbers.isEmpty then [] else queryImageChunks store projectId pageNumbers
  if (textChunks ++ imageChunks).isEmpty then
    { earlyAnswer := some noDocumentsAnswer
      citations := []
      imgCitations := []
      contextParts := []
      totalTokens := 0
      llmCalled := false }
  else
    let r := processTextChunks maxTokens 0 textChunks
    let imgCits := imageCitations imageChunks
    { earlyAnswer := none
      citations := r.2.1 ++ imgCits
      imgCitations := imgCits
      contextParts := r.1
      totalTokens := r.2.2
      llmCalled := true }

/-! ## Structured-output extraction (chat_service.py lines 24-176 and the
caller fallback at lines 389-437)

Strategy 1 (lines 37-44) is embedded concretely: `json.loads` on the
stripped output is a parameter `loads` (`none` models a raised
`JSONDecodeError`), schema validation is a parameter `validateOk`
(`false` models a raised `ValidationError`); both exceptions are caught
by the strategy's `except` clause.  Crucially that clause catches ONLY
those two types, so when the whole output parses to a non-dict JSON
value, `parsed.keys()` raises an `AttributeError` that nothing catches
and the function raises instead of returning.  Strategies 2-4, whose
bodies can only return a parsed dict or fall through (strategy 2's
balanced-brace matches always parse to dicts; strategies 3 and 4 are
wrapped in blanket `except Exception`), are abstracted as total
`String → Option PyJson` parameters. -/

/-- A Python JSON value as returned by `json.loads`. -/
inductive PyJson where
  | null
  | boolean (b : Bool)
  | number (q : ℚ)
  | str (s : String)
  | arr (elems : List PyJson)
  | obj (fields : List (String × PyJson))

/-- The uncaught exception escaping `extract_valid_response_json`. -/
inductive PyError where
  | attributeError
deriving Repr, DecidableEq

/-- Python truthiness of a JSON value (`if answer_json:` at
chat_service.py line 394; `None` is handled at the call site). -/
def pyTruthyJson : PyJson → Bool
  | PyJson.null => false
  | PyJson.boolean b => b
  | PyJson.number q => !(q == 0)
  | PyJson.str s => !(s == "")
  | PyJson.arr elems => !elems.isEmpty
  | PyJson.obj fields => !fields.isEmpty

/-- chat_service.py line 22: the two keys required of a parsed response. -/
def expected_keys : List String := ["reply_text", "citation"]

/-- Whitespace stripped by Python `str.strip()`. -/
def isPySpace (c : Char) : Bool :=
  c == ' ' || c == '\t' || c == '\n' || c == '\r' || c == '\x0b' || c == '\x0c'

/-- Python `str.strip()`. -/
def pyStrip (s : String) : String :=
  String.mk (((s.data.dropWhile isPySpace).reverse.dropWhile isPySpace).reverse)

/-- chat_service.py lines 37-44 (strategy 1, direct parse):
`json.loads(model_output.strip())`; a decode error is caught and falls
through (`Except.ok none`); a parsed dict is returned when its keys
contain both expected keys and the schema validates, falls through on a
caught validation error or a failed key check; a parsed NON-dict raises
an uncaught `AttributeError` at `parsed.keys()`. -/
def strategy1Result (loads : String → Option PyJson)
    (validateOk : PyJson → Bool) (modelOutput : String) :
    Except PyError (Option PyJson) :=
  match loads (pyStrip modelOutput) with
  | none => Except.ok none
  | some parsed =>
    match parsed with
    | PyJson.obj fields =>
      if expected_keys.all (fun k => (fields.map (fun kv => kv.1)).contains k) then
        if validateOk (PyJson.obj fields) then Except.ok (some (PyJson.obj fields))
        else Except.ok none
      else Except.ok none
    | _ => Except.error PyError.attributeError

/-- chat_service.py lines 24-176: strategy 1 (which may raise), then
strategies 2-4 in order, returning the first success; if all four fall
through, return `None` (`Except.ok none`). -/
def extract_valid_response_json (loads : String → Option PyJson)
    (validateOk : PyJson → Bool)
    (strategy2 strategy3 strategy4 : String → Option PyJson)
    (modelOutput : String) : Except PyError (Option PyJson) :=
  match strategy1Result loads validateOk modelOutput with
  | Except.error e => Except.error e
  | Except.ok (some parsed) => Except.ok (some parsed)
  | Except.ok none =>
    match strategy2 modelOutput with
    | some parsed => Except.ok (some parsed)
    | none =>
      match strategy3 modelOutput with
      | some parsed => Except.ok (some parsed)
      | none =>
        match strategy4 modelOutput with
        | some parsed => Except.ok (some parsed)
        | none => Except.ok none

/-- chat_service.py lines 433-434: the fallback record substituted when
extraction returns `None` — the raw model output as `reply_text`, an
empty citation list. -/
def fallbackAnswerJson (answer : String) : PyJson :=
  PyJson.obj [("reply_text", PyJson.str answer), ("citation", PyJson.arr [])]

/-- chat_service.py lines 392-437: the caller of the extractor.  An
exception raised by the extractor propagates (to the outer handler of
`process_rag_query`).  A truthy extracted record is post-processed
(screenshot-id correlation and document-name collection, lines 394-427,
abstracted as `postProcess`); on `None` (or a falsy record) the fallback
record is substituted. -/
def callerAnswerJson (postProcess : PyJson → PyJson)
    (loads : String → Option PyJson) (validateOk : PyJson → Bool)
    (strategy2 strategy3 strategy4 : String → Option PyJson)
    (answer : String) : Except PyError PyJson :=
  match extract_valid_response_json loads validateOk strategy2 strategy3
      strategy4 answer with
  | Except.error e => Except.error e
  | Except.ok (some answerJson) =>
    if pyTruthyJson answerJson then Except.ok (postProcess answerJson)
    else Except.ok (fallbackAnswerJson answer)
  | Except.ok none => Except.ok (fallbackAnswerJson answer)

/-! ## Top-level error handling of `process_rag_query`
(chat_service.py lines 205-449) -/

/-- chat_service.py lines 446-448: the canned apologetic reply of the
`except Exception` handler. -/
def errorFallbackAnswer : String :=
  "I'm sorry, I encountered an error while processing your question. Please try again later."

/-- The `try/except Exception` wrapping the whole body of
`process_rag_query` (chat_service.py lines 205-449).  The body — embedding
generation, the two store queries, the language-model call and answer
extraction — is modelled as an `Except`-valued computation; any raised
exception is caught and replaced by the canned apologetic answer with
empty citations, so the function always returns normally. -/
def processRagQueryGuarded
    (body : Except String (String × List RagCitation)) :
    Except String (String × List RagCitation) :=
  match body with
  | Except.ok r => Except.ok r
  | Except.error _ => Except.ok (errorFallbackAnswer, [])

/-! ## Multi-file upload batch (api/routes/project.py lines 176-208) -/

/-- The per-document summary dictionary returned by
`DocumentService.process_document` (document_service.py lines 488-493). -/
structure ProcessingResult where
  document_name : String
  document_type : String
  pages_processed : Nat
  chunks_created : Nat
deriving Repr, DecidableEq

/-- The per-file loop of `upload_documents` (project.py lines 176-208):
each file is processed inside its own `try`; on failure the file is
skipped (`continue`) and the loop proceeds with the remaining files;
successes extend `documents_processed` and add their `chunks_created`
to `total_chunks`.  Per-file processing (save, segment, embed, store) is
abstracted as an `Except`-valued function. -/
def uploadDocumentsLoop {α : Type}
    (process : α → Except String (List ProcessingResult)) :
    List α → List ProcessingResult × Nat
  | [] => ([], 0)
  | f :: rest =>
    match process f with
    | Except.ok results =>
      let r := uploadDocumentsLoop process rest
      (results ++ r.1, (results.map (fun pr => pr.chunks_created)).sum + r.2)
    | Except.error _ => uploadDocumentsLoop process rest

/-- A concrete batch processor: the corrupt file fails, the others each
yield one processing result. -/
def sampleBatchProcess : String → Except String (List ProcessingResult) :=
  fun f =>
    if f == "corrupt.pdf" then Except.error ("Error processing file " ++ f)
    else Except.ok [{ document_name := f
                      document_type := "pdf"
                      pages_processed := 1
                      chunks_created := 3 }]

/-! ## Segmenter chunk records (services/document_processor.py)

The text-splitting itself (`semantic_chunk_text`, a recursive-separator
splitter) produces a list of chunk strings; the record constructions below
embed the per-chunk dictionary loops, taking that list as input. -/

/-- An entry of a chunk's `images` list (document_processor.py
lines 183-187, 549-553). -/
structure ImageEntry where
  id : String
  base64 : String
  mime_type : String
deriving Repr, DecidableEq

/-- A chunk dictionary produced by `DocumentProcessor`.  Keys absent from
a given constructor keep their defaults (`none` / `false`). -/
structure ProcChunk where
  chunk_id : String
  chunk_text : String
  page_number : Option Nat
  images : List ImageEntry
  source_type : String
  doc_name : String
  images_base64 : Option (List ImageEntry) := none
  is_image_chunk : Bool := false
  page_has_images : Option Bool := none
deriving Repr, DecidableEq

/-- document_processor.py lines 250-263 (`_process_markdown`): one record
per chunk, `chunk_id = f"{file_name}_c{chunk_index+1}"`, and
`page_number = 1` — markdown files are considered single-page. -/
def markdownChunkRecords (fileName : String) (chunks : List String) :
    List ProcChunk :=
  chunks.enum.map (fun p =>
    { chunk_id := fileName ++ "_c" ++ toString (p.1 + 1)
      chunk_text := p.2
      page_number := some 1
      images := []
      source_type := "markdown"
      doc_name := fileName })

/-- document_processor.py lines 420-433 (`_process_text`): one record per
chunk with `page_number = 1` — text files are considered single-page. -/
def textChunkRecords (fileName : String) (chunks : List String) :
    List ProcChunk :=
  chunks.enum.map (fun p =>
    { chunk_id := fileName ++ "_c" ++ toString (p.1 + 1)
      chunk_text := p.2
      page_number := some 1
      images := []
      source_type := "text"
      doc_name := fileName })

/-- document_processor.py lines 472-485 (`_process_docx`): one record per
chunk with `page_number = 1` — DOCX files are considered single-page. -/
def docxChunkRecords (fileName : String) (chunks : List String) :
    List ProcChunk :=
  chunks.enum.map (fun p =>
    { chunk_id := fileName ++ "_c" ++ toString (p.1 + 1)
      chunk_text := p.2
      page_number := some 1
      images := []
      source_type := "docx"
      doc_name := fileName })

/-- document_processor.py lines 375-389 (`process_web_content`): one record
per chunk, chunk id derived from the normalized URL with `://` and `/`
replaced by `_`, and `page_number = 1` — web pages are considered
single-page. -/
def webChunkRecords (normalizedUrl : String) (chunks : List String) :
    List ProcChunk :=
  chunks.enum.map (fun p =>
    { chunk_id := (normalizedUrl.replace "://" "_").replace "/" "_" ++
        "_c" ++ toString (p.1 + 1)
      chunk_text := p.2
      page_number := some 1
      images := []
      source_type := "web"
      doc_name := normalizedUrl
      page_has_images := some false })

/-- document_processor.py lines 192-204 (`_process_pdf`, text chunks of
page index `pageNum`): `page_number = page_num + 1`, a 1-based page. -/
def pdfTextChunkRecords (fileName : String) (pageNum : Nat)
    (chunks : List String) : List ProcChunk :=
  chunks.enum.map (fun p =>
    { chunk_id := fileName ++ "_p" ++ toString (pageNum + 1) ++ "_c" ++
        toString (p.1 + 1)
      chunk_text := p.2
      page_number := some (pageNum + 1)
      images := []
      source_type := "pdf"
      doc_name := fileName
      page_has_images := some true })

/-- document_processor.py lines 206-217 (`_process_pdf`, the per-page
screenshot chunk): placeholder text, the page screenshot as payload,
`page_number = page_num + 1`. -/
def pdfScreenshotChunkRecord (fileName : String) (pageNum : Nat)
    (screenshot : ImageEntry) : ProcChunk :=
  { chunk_id := fileName ++ "_p" ++ toString (pageNum + 1) ++ "_screenshot"
    chunk_text := "[Page " ++ toString (pageNum + 1) ++ " screenshot]"
    page_number := some (pageNum + 1)
    images := [screenshot]
    source_type := "pdf"
    doc_name := fileName
    images_base64 := some [screenshot]
    is_image_chunk := true }

/-! ## Embedding normalization (document_service.py lines 499-522) -/

/-- The L2 norm computed by `np.linalg.norm` on the embedding vector
(exact-real idealization of the floating-point computation). -/
noncomputable def l2norm (v : List ℝ) : ℝ :=
  Real.sqrt ((v.map (fun x => x * x)).sum)

/-- document_service.py lines 499-522 (`_normalize_embedding`): divide the
vector by its L2 norm when the norm is positive, otherwise return the
vector unchanged. -/
noncomputable def normalizeEmbedding (v : List ℝ) : List ℝ :=
  if 0 < l2norm v then v.map (fun x => x / l2norm v) else v

/-! ## URL normalization (document_processor.py lines 268-305)

`normalize_url` is built on the Python standard-library functions
`urlparse`, `parse_qs`, `urlencode` and `urlunparse`; those four are
modelled here from their documented behavior, over explicit character
lists so that everything evaluates.  Percent-encoding/decoding and
plus-to-space translation are not modelled (no pipeline URL uses them),
and multi-valued query keys are kept as an ordered association list. -/

namespace PyUrl

/-- Split at the first occurrence of `sep` (assumed non-empty):
`some (before, after)` when found. -/
def splitOnceChars (sep : List Char) : List Char → Option (List Char × List Char)
  | [] => none
  | c :: cs =>
    if sep.isPrefixOf (c :: cs) then some ([], (c :: cs).drop sep.length)
    else
      match splitOnceChars sep cs with
      | some (pre, post) => some (c :: pre, post)
      | none => none

/-- Fuel-driven splitting at every occurrence of `sep` (Python
`str.split`); the fuel is the input length, enough since every split
consumes at least one character. -/
def splitAllAux (sep : List Char) : Nat → List Char → List (List Char)
  | 0, cs => [cs]
  | Nat.succ fuel, cs =>
    match splitOnceChars sep cs with
    | some (pre, post) => pre :: splitAllAux sep fuel post
    | none => [cs]

/-- Python `str.split(sep)` on character lists. -/
def splitAll (sep cs : List Char) : List (List Char) :=
  splitAllAux sep cs.length cs

/-- ASCII lowering, as applied by `urlparse` to the scheme. -/
def asciiLower (c : Char) : Char :=
  if 'A' ≤ c && c ≤ 'Z' then Char.ofNat (c.toNat + 32) else c

/-- The six components returned by `urllib.parse.urlparse`. -/
structure ParsedUrl where
  scheme : String
  netloc : String
  path : String
  params : String
  query : String
  fragment : String
deriving Repr, DecidableEq

/-- `urllib.parse.urlparse`: split off the fragment at the first `#`, the
(lowercased) scheme before `://`, the netloc after `//` up to the next
`/` or `?`, the query after the first `?`, and path parameters after a
`;` in the last path segment. -/
def urlparse (url : String) : ParsedUrl :=
  let cs := url.data
  let (rest, fragment) :=
    match splitOnceChars ['#'] cs with
    | some (pre, post) => (pre, post)
    | none => (cs, [])
  let (scheme, rest2) :=
    match splitOnceChars [':', '/', '/'] rest with
    | some (pre, post) => (pre.map asciiLower, '/' :: '/' :: post)
    | none => ([], rest)
  let (netloc, rest3) :=
    if ['/', '/'].isPrefixOf rest2 then
      let r := rest2.drop 2
      let nl := r.takeWhile (fun ch => !(ch == '/') && !(ch == '?'))
      (nl, r.drop nl.length)
    else ([], rest2)
  let (pathPart, query) :=
    match splitOnceChars ['?'] rest3 with
    | some (pre, post) => (pre, post)
    | none => (rest3, [])
  let (path, params) :=
    let lastSeg := (splitAll ['/'] pathPart).getLast?.getD pathPart
    match splitOnceChars [';'] lastSeg with
    | some (_, ps) => (pathPart.take (pathPart.length - ps.length - 1), ps)
    | none => (pathPart, [])
  { scheme := String.mk scheme
    netloc := String.mk netloc
    path := String.mk path
    params := String.mk params
    query := String.mk query
    fragment := String.mk fragment }

/-- `urllib.parse.parse_qs` with default arguments, as an ordered
association list: split the query on `&`, each item at its first `=`;
items without `=` or with an empty value are dropped. -/
def parseQs (query : String) : List (String × String) :=
  (splitAll ['&'] query.data).filterMap (fun pair =>
    match splitOnceChars ['='] pair with
    | none => none
    | some (k, v) =>
      if v.isEmpty then none else some (String.mk k, String.mk v))

/-- Join strings with a separator (Python `sep.join`). -/
def joinWith (sep : String) : List String → String
  | [] => ""
  | [x] => x
  | x :: xs => x ++ sep ++ joinWith sep xs

/-- `urllib.parse.urlencode(params, doseq=True)` on the association list:
`key=value` pairs joined by `&`. -/
def urlencodePairs (ps : List (String × String)) : String :=
  joinWith "&" (ps.map (fun p => p.1 ++ "=" ++ p.2))

/-- Python `str.startswith` on strings. -/
def strStartsWith (s pre : String) : Bool :=
  pre.data.isPrefixOf s.data

/-- `urllib.parse.urlunparse`: reassemble the six components, prefixing
`//netloc` when a netloc is present, `scheme:` when a scheme is present,
and appending `;params`, `?query` and `#fragment` when non-empty. -/
def urlunparse (u : ParsedUrl) : String :=
  let url0 := u.path
  let url1 := if u.params == "" then url0 else url0 ++ ";" ++ u.params
  let url2 :=
    if u.netloc == "" && !(strStartsWith url1 "//") then url1
    else
      "//" ++ u.netloc ++
        (if url1 == "" || strStartsWith url1 "/" then url1 else "/" ++ url1)
  let url3 := if u.scheme == "" then url2 else u.scheme ++ ":" ++ url2
  let url4 := if u.query == "" then url3 else url3 ++ "?" ++ u.query
  if u.fragment == "" then url4 else url4 ++ "#" ++ u.fragment

end PyUrl

/-- document_processor.py lines 268-305 (`normalize_url`): force an
http/https scheme to https, strip trailing slashes from the path
(defaulting an empty path to `/`), drop query parameters whose key starts
with `utm_`, drop the fragment, and reassemble. -/
def normalize_url (url : String) : String :=
  let parsedUrl := PyUrl.urlparse url
  let scheme :=
    if parsedUrl.scheme == "http" || parsedUrl.scheme == "https" then "https"
    else parsedUrl.scheme
  let path0 := String.mk ((parsedUrl.path.data.reverse.dropWhile (fun ch => ch == '/')).reverse)
  let path := if path0 == "" then "/" else path0
  let queryParams := PyUrl.parseQs parsedUrl.query
  let filteredParams :=
    queryParams.filter (fun kv => !(PyUrl.strStartsWith kv.1 "utm_"))
  let queryString :=
    if filteredParams.isEmpty then "" else PyUrl.urlencodePairs filteredParams
  PyUrl.urlunparse
    { scheme := scheme
      netloc := parsedUrl.netloc
      path := path
      params := parsedUrl.params
      query := queryString
      fragment := "" }

/-! ## Concrete sample data for witnesses -/

/-- A constant distance function for concrete evaluations. -/
def sampleDist : RagChunk → ℚ := fun _ => 0

/-- A concrete text chunk of page 1 of a PDF document. -/
def sampleTextChunk : RagChunk :=
  { project_id := "p1"
    document_id := "doc1"
    chunk_id := "f.pdf_p1_c1"
    chunk_text := "hello world"
    embedding := some [1]
    page_number := some 1
    doc_name := "f.pdf"
    source_type := "pdf"
    images_base64 := none }

/-- A concrete screenshot chunk (null embedding) of the same page. -/
def sampleScreenshotChunk : RagChunk :=
  { project_id := "p1"
    document_id := "doc1"
    chunk_id := "f.pdf_p1_screenshot"
    chunk_text := "[Page 1 screenshot]"
    embedding := none
    page_number := some 1
    doc_name := "f.pdf"
    source_type := "pdf"
    images_base64 := some "[img]" }

/-- A concrete two-chunk store: one text chunk and its page screenshot. -/
def sampleStore : List RagChunk := [sampleTextChunk, sampleScreenshotChunk]

/-- `json.loads` at the failing input: the whole output `"[]"` parses to
the empty JSON list (a non-dict value). -/
def sampleLoads : String → Option PyJson :=
  fun s => if s == "[]" then some (PyJson.arr []) else none

/-- `json.loads` on unparsable garbage: always a decode error. -/
def failingLoads : String → Option PyJson := fun _ => none

/-- A schema validator that always succeeds. -/
def alwaysValid : PyJson → Bool := fun _ => true

/-- A parsing strategy that always falls through, for concrete evaluations
of the extractor chain. -/
def noneJsonStrategy : String → Option PyJson := fun _ => none

end InstantRag

namespace InstantRag

/-! ## Theorems -/

theorem processTextChunks_total_eq (maxTokens : Nat) :
    ∀ (chunks : List RagChunk) (t : Nat),
      (processTextChunks maxTokens t chunks).2.2 =
        t + sumEstTokens (processTextChunks maxTokens t chunks).1 := by
  intro chunks
  induction chunks with
  | nil => intro t; simp [processTextChunks, sumEstTokens]
  | cons c rest ih =>
    intro t
    simp only [processTextChunks]
    by_cases h : t + estTokens (chunkTxtWithCitations c) > maxTokens
    · simp only [h, if_pos]
      exact ih t
    · simp only [h, if_neg, not_false_iff]
      rw [ih (t + estTokens (chunkTxtWithCitations c))]
      simp [sumEstTokens]
      ring

theorem processTextChunks_total_le (maxTokens : Nat) :
    ∀ (chunks : List RagChunk) (t : Nat), t ≤ maxTokens →
      (processTextChunks maxTokens t chunks).2.2 ≤ maxTokens := by
  intro chunks
  induction chunks with
  | nil => intro t ht; simpa [processTextChunks] using ht
  | cons c rest ih =>
    intro t ht
    simp only [processTextChunks]
    by_cases h : t + estTokens (chunkTxtWithCitations c) > maxTokens
    · simp only [h, if_pos]
      exact ih t ht
    · simp only [h, if_neg, not_false_iff]
      exact ih _ (Nat.le_of_not_lt h)

/-- C1: For every list of retrieved text chunks and every token budget
`maxTokens`, the context assembled by `process_rag_query` has an estimated
token count (length of chunk text plus citation marker, integer-divided
by 4, summed over the accepted parts) that never exceeds the budget;
the accumulated `total_tokens` equals exactly that sum, chunks being
accumulated in order with over-budget chunks skipped whole. -/
theorem context_token_budget_respected
    (chunks : List RagChunk) (maxTokens : Nat) :
    sumEstTokens (processTextChunks maxTokens 0 chunks).1 ≤ maxTokens ∧
    (processTextChunks maxTokens 0 chunks).2.2 =
      sumEstTokens (processTextChunks maxTokens 0 chunks).1 := by
  have he := processTextChunks_total_eq maxTokens chunks 0
  have hle := processTextChunks_total_le maxTokens chunks 0 (Nat.zero_le _)
  constructor
  · omega
  · simpa using he

/-- C10: The citation list produced by the text-chunk loop is exactly the
image of the retrieved chunks under `textCitationOf`, for every budget and
every starting total: a chunk skipped from the context for exceeding the
budget still contributes its citation, so the number of text citations
always equals the number of similarity hits. -/
theorem citations_independent_of_budget
    (chunks : List RagChunk) (maxTokens totalTokens : Nat) :
    (processTextChunks maxTokens totalTokens chunks).2.1 =
      chunks.map textCitationOf ∧
    (processTextChunks maxTokens totalTokens chunks).2.1.length =
      chunks.length := by
  have h : ∀ (cs : List RagChunk) (t : Nat),
      (processTextChunks maxTokens t cs).2.1 = cs.map textCitationOf := by
    intro cs
    induction cs with
    | nil => intro t; simp [processTextChunks]
    | cons c rest ih =>
      intro t
      simp only [processTextChunks]
      by_cases hgt : t + estTokens (chunkTxtWithCitations c) > maxTokens
      · simp [hgt, ih]
      · simp [hgt, ih]
  refine ⟨h chunks totalTokens, ?_⟩
  rw [h chunks totalTokens]
  simp

/-- C8: For a project with zero chunks in the store, `process_rag_query`
short-circuits with the fixed no-documents answer, an empty citation list,
and no language-model call. -/
theorem empty_project_short_circuit
    (store : List RagChunk) (projectId : String)
    (dist : RagChunk → ℚ) (topK maxTokens : Nat)
    (h : ∀ c ∈ store, c.project_id ≠ projectId) :
    processRagQueryRetrieval store projectId dist topK maxTokens =
      { earlyAnswer := some noDocumentsAnswer
        citations := []
        imgCitations := []
        contextParts := []
        totalTokens := 0
        llmCalled := false } := by
  have hfilter : store.filter
      (fun c => c.project_id == projectId && c.embedding.isSome) = [] := by
    rw [List.filter_eq_nil_iff]
    intro c hc
    simp only [Bool.and_eq_true, beq_iff_eq, not_and]
    intro hp
    exact absurd hp (h c hc)
  have htext : queryTextChunks store projectId dist topK = [] := by
    rw [queryTextChunks, hfilter]
    simp [sortByDist]
  rw [processRagQueryRetrieval, htext]
  rfl

/-- C8 witness: the empty store. -/
theorem empty_project_short_circuit_witness :
    (∀ c ∈ ([] : List RagChunk), c.project_id ≠ "p1") ∧
    processRagQueryRetrieval [] "p1" (fun _ => 0) 5 30000 =
      { earlyAnswer := some noDocumentsAnswer
        citations := []
        imgCitations := []
        contextParts := []
        totalTokens := 0
        llmCalled := false } :=
  ⟨by simp, empty_project_short_circuit [] "p1" (fun _ => 0) 5 30000 (by simp)⟩

/-- C3: If the store holds a null-embedding screenshot chunk `S` for page
`P` of document `D` (with a non-empty image payload), then every retrieval
whose similarity query surfaces a text chunk with `(document_id,
page_number) = (D, P)` includes `S`'s image payload in the returned
citation list, via the second (null-embedding, page-matching) query. -/
theorem screenshot_citation_pulled_in
    (store : List RagChunk) (projectId : String) (dist : RagChunk → ℚ)
    (topK maxTokens : Nat) (S : RagChunk) (D : String) (P : Nat)
    (hS : S ∈ store) (hproj : S.project_id = projectId)
    (hemb : S.embedding = none)
    (hdoc : S.document_id = D) (hpage : S.page_number = some P)
    (himg : pyTruthy S.images_base64 = true)
    (hhit : ∃ t ∈ queryTextChunks store projectId dist topK,
      t.document_id = D ∧ t.page_number = some P) :
    ∃ cit ∈ (processRagQueryRetrieval store projectId dist topK maxTokens).citations,
      cit.chunk_id = S.chunk_id ∧ cit.images_base64 = S.images_base64 := by
  obtain ⟨t, ht, htD, htP⟩ := hhit
  have hpair : (D, some P) ∈
      (queryTextChunks store projectId dist topK).map
        (fun c => (c.document_id, c.page_number)) :=
    List.mem_map.mpr ⟨t, ht, by rw [htD, htP]⟩
  have hpn : ((queryTextChunks store projectId dist topK).map
      (fun c => (c.document_id, c.page_number))).isEmpty = false := by
    cases hmap : (queryTextChunks store projectId dist topK).map
        (fun c => (c.document_id, c.page_number)) with
    | nil => rw [hmap] at hpair; cases hpair
    | cons a as => rfl
  have hSmem : S ∈ queryImageChunks store projectId
      ((queryTextChunks store projectId dist topK).map
        (fun c => (c.document_id, c.page_number))) := by
    rw [queryImageChunks, List.mem_filter]
    refine ⟨hS, ?_⟩
    simp only [Bool.and_eq_true, beq_iff_eq, List.any_eq_true]
    refine ⟨⟨hproj, by rw [hemb]; rfl⟩, ⟨(D, some P), hpair, ?_⟩⟩
    simp [hdoc, hpage, sqlEqOptNat]
  have happ : ((queryTextChunks store projectId dist topK) ++
      queryImageChunks store projectId
        ((queryTextChunks store projectId dist topK).map
          (fun c => (c.document_id, c.page_number)))).isEmpty = false := by
    cases hq : queryTextChunks store projectId dist topK with
    | nil => rw [hq] at ht; cases ht
    | cons a as => rfl
  have hcit : imageCitationOf S ∈ imageCitations
      (queryImageChunks store projectId
        ((queryTextChunks store projectId dist topK).map
          (fun c => (c.document_id, c.page_number)))) := by
    rw [imageCitations]
    exact List.mem_filterMap.mpr ⟨S, hSmem, by rw [himg]; rfl⟩
  simp only [processRagQueryRetrieval, hpn, Bool.false_eq_true, if_false, happ]
  exact ⟨imageCitationOf S, List.mem_append_right _ hcit, rfl, rfl⟩

/-- C3 witness: in the concrete store, retrieving the page-1 text chunk
pulls the page-1 screenshot's image payload into the citations. -/
theorem screenshot_citation_pulled_in_witness :
    (sampleScreenshotChunk ∈ sampleStore ∧
     sampleScreenshotChunk.project_id = "p1" ∧
     sampleScreenshotChunk.embedding = none ∧
     sampleScreenshotChunk.document_id = "doc1" ∧
     sampleScreenshotChunk.page_number = some 1 ∧
     pyTruthy sampleScreenshotChunk.images_base64 = true ∧
     ∃ t ∈ queryTextChunks sampleStore "p1" sampleDist 5,
       t.document_id = "doc1" ∧ t.page_number = some 1) ∧
    ∃ cit ∈ (processRagQueryRetrieval sampleStore "p1" sampleDist 5 30000).citations,
      cit.chunk_id = sampleScreenshotChunk.chunk_id ∧
      cit.images_base64 = sampleScreenshotChunk.images_base64 :=
  ⟨⟨by decide, by decide, by decide, by decide, by decide, by decide, by decide⟩,
   screenshot_citation_pulled_in sampleStore "p1" sampleDist 5 30000
     sampleScreenshotChunk "doc1" 1 (by decide) (by decide) (by decide)
     (by decide) (by decide) (by decide) (by decide)⟩

/-- C2: the code deviates from the claim at the model output `"[]"` (the
whole output parses as a JSON list, not a dict): strategy 1's
`parsed.keys()` raises an `AttributeError` that its `except` clause (only
`JSONDecodeError`/`ValidationError`) does not catch, so
`extract_valid_response_json` raises instead of returning null, the
caller's raw-text fallback is never built, and the exception reaches
`process_rag_query`'s outer handler, which answers with the apologetic
error reply.  By contrast, on an input where every strategy falls through
WITHOUT such a raise (unparsable garbage), null is returned and the
caller does substitute the raw output with empty citations, as the claim
— and the function's own docstring — promise for all inputs. -/
theorem extractor_raises_on_nondict_json :
    extract_valid_response_json sampleLoads alwaysValid noneJsonStrategy
        noneJsonStrategy noneJsonStrategy "[]" =
      Except.error PyError.attributeError ∧
    callerAnswerJson id sampleLoads alwaysValid noneJsonStrategy
        noneJsonStrategy noneJsonStrategy "[]" =
      Except.error PyError.attributeError ∧
    processRagQueryGuarded (Except.error "AttributeError") =
      Except.ok (errorFallbackAnswer, []) ∧
    extract_valid_response_json failingLoads alwaysValid noneJsonStrategy
        noneJsonStrategy noneJsonStrategy "total garbage" =
      Except.ok none ∧
    callerAnswerJson id failingLoads alwaysValid noneJsonStrategy
        noneJsonStrategy noneJsonStrategy "total garbage" =
      Except.ok (fallbackAnswerJson "total garbage") :=
  ⟨rfl, rfl, rfl, rfl, rfl⟩

/-- C5 counterexample: a backend failure raised inside the body of
`process_rag_query` does not reach the caller — the `except Exception`
handler converts it into the canned in-band apologetic answer with empty
citations. -/
theorem backend_failure_not_propagated_cex :
    processRagQueryGuarded (Except.error "embedding backend unavailable") =
      Except.ok (errorFallbackAnswer, []) ∧
    processRagQueryGuarded (Except.error "embedding backend unavailable") ≠
      Except.error "embedding backend unavailable" := by
  constructor
  · rfl
  · simp [processRagQueryGuarded]

/-- C5 (amended): every failure of the body of `process_rag_query` —
embedding backend, language model, or chunk store — is caught by the
top-level exception handler and turned into the fixed apologetic in-band
answer with an empty citation list; successful bodies pass through
unchanged. -/
theorem backend_failure_degraded_in_band (e : String) :
    processRagQueryGuarded (Except.error e) =
      Except.ok (errorFallbackAnswer, []) ∧
    ∀ r : String × List RagCitation,
      processRagQueryGuarded (Except.ok r) = Except.ok r :=
  ⟨rfl, fun _ => rfl⟩

theorem uploadDocumentsLoop_characterization {α : Type}
    (process : α → Except String (List ProcessingResult)) :
    ∀ files : List α,
      uploadDocumentsLoop process files =
        ((files.filterMap (fun f => (process f).toOption)).flatten,
         (((files.filterMap (fun f => (process f).toOption)).flatten).map
           (fun pr => pr.chunks_created)).sum) := by
  intro files
  induction files with
  | nil => simp [uploadDocumentsLoop]
  | cons f rest ih =>
    cases hf : process f with
    | ok results =>
      simp [uploadDocumentsLoop, hf, ih, Except.toOption]
    | error e =>
      simp [uploadDocumentsLoop, hf, ih, Except.toOption]

/-- C9: a failure while processing one file of a multi-file upload batch
never aborts the batch: the loop is total, the reported processing results
are exactly the concatenated results of the files whose processing
succeeded (in order, so files after a failure are still processed), the
chunk total counts only those, and on the concrete batch
[valid.pdf, corrupt.pdf, valid.md] with a failing corrupt.pdf the
processed-document count is 2. -/
theorem upload_batch_failure_isolated {α : Type}
    (process : α → Except String (List ProcessingResult)) (files : List α) :
    (uploadDocumentsLoop process files).1 =
      (files.filterMap (fun f => (process f).toOption)).flatten ∧
    (uploadDocumentsLoop process files).2 =
      (((files.filterMap (fun f => (process f).toOption)).flatten).map
        (fun pr => pr.chunks_created)).sum ∧
    (uploadDocumentsLoop sampleBatchProcess
      ["valid.pdf", "corrupt.pdf", "valid.md"]).1.length = 2 := by
  have h := uploadDocumentsLoop_characterization process files
  refine ⟨?_, ?_, by decide⟩
  · rw [h]
  · rw [h]

/-- C4 counterexample: a chunk segmented from a markdown source has
`page_number = 1`, not null — the code marks markdown (and text, docx,
web) chunks as page 1, contradicting the claim that their `page_number`
is null. -/
theorem unpaginated_page_number_cex :
    ¬ (∀ c ∈ markdownChunkRecords "notes.md" ["hello world"],
        c.page_number = none) ∧
    (markdownChunkRecords "notes.md" ["hello world"]).map
      (fun c => c.page_number) = [some 1] := by
  constructor
  · decide
  · decide

/-- C4 (amended): every chunk produced by segmenting a markdown, text,
docx, or web source carries `page_number = 1` (these sources are treated
as a single logical page, not as unpaginated/null); PDF text chunks carry
the true 1-based page number. -/
theorem unpaginated_sources_have_page_one
    (name url : String) (chunks : List String) (pageNum : Nat) :
    ((markdownChunkRecords name chunks).all
      (fun c => c.page_number == some 1) = true) ∧
    ((textChunkRecords name chunks).all
      (fun c => c.page_number == some 1) = true) ∧
    ((docxChunkRecords name chunks).all
      (fun c => c.page_number == some 1) = true) ∧
    ((webChunkRecords url chunks).all
      (fun c => c.page_number == some 1) = true) ∧
    ((pdfTextChunkRecords name pageNum chunks).all
      (fun c => c.page_number == some (pageNum + 1)) = true) := by
  refine ⟨?_, ?_, ?_, ?_, ?_⟩ <;>
    · simp [markdownChunkRecords, textChunkRecords, docxChunkRecords,
        webChunkRecords, pdfTextChunkRecords, List.all_eq_true]
      intro x i s hmem hx
      rw [← hx]

theorem sum_map_div (l : List ℝ) (c : ℝ) :
    (l.map (fun x => x / c)).sum = l.sum / c := by
  induction l with
  | nil => simp
  | cons a t ih => simp [ih, add_div]

theorem sum_squares_nonneg (v : List ℝ) :
    0 ≤ (v.map (fun x => x * x)).sum := by
  apply List.sum_nonneg
  intro x hx
  obtain ⟨y, _, rfl⟩ := List.mem_map.mp hx
  exact mul_self_nonneg y

/-- C6: `_normalize_embedding` returns `v / ‖v‖` when `‖v‖ > 0` — a vector
of unit L2 norm — and returns `v` unchanged (the zero vector) when
`‖v‖ = 0`. -/
theorem normalize_embedding_unit_norm (v : List ℝ) :
    (0 < l2norm v →
      normalizeEmbedding v = v.map (fun x => x / l2norm v) ∧
      l2norm (normalizeEmbedding v) = 1) ∧
    (l2norm v = 0 → normalizeEmbedding v = v) := by
  constructor
  · intro hpos
    have hdef : normalizeEmbedding v = v.map (fun x => x / l2norm v) := by
      rw [normalizeEmbedding, if_pos hpos]
    refine ⟨hdef, ?_⟩
    have hSnn : 0 ≤ (v.map (fun x => x * x)).sum := sum_squares_nonneg v
    have hsq : l2norm v * l2norm v = (v.map (fun x => x * x)).sum :=
      Real.mul_self_sqrt hSnn
    have hSpos : 0 < (v.map (fun x => x * x)).sum := by
      by_contra hc
      push_neg at hc
      have h0 : (v.map (fun x => x * x)).sum = 0 := le_antisymm hc hSnn
      rw [l2norm, h0, Real.sqrt_zero] at hpos
      exact lt_irrefl 0 hpos
    rw [hdef, l2norm]
    have hmap : (v.map (fun x => x / l2norm v)).map (fun x => x * x) =
        (v.map (fun x => x * x)).map
          (fun x => x / (l2norm v * l2norm v)) := by
      simp only [List.map_map]
      apply List.map_congr_left
      intro a _
      simp only [Function.comp]
      exact div_mul_div_comm a (l2norm v) a (l2norm v)
    rw [hmap, sum_map_div, hsq, div_self (ne_of_gt hSpos), Real.sqrt_one]
  · intro hzero
    rw [normalizeEmbedding, if_neg]
    rw [hzero]
    exact lt_irrefl 0

/-- C6 witness: the vector `[3, 4]` (norm 5) normalizes to unit norm; the
zero vector `[0]` (norm 0) is returned unchanged. -/
theorem normalize_embedding_unit_norm_witness :
    (0 < l2norm [(3 : ℝ), 4] ∧
     normalizeEmbedding [(3 : ℝ), 4] =
       [(3 : ℝ), 4].map (fun x => x / l2norm [(3 : ℝ), 4]) ∧
     l2norm (normalizeEmbedding [(3 : ℝ), 4]) = 1) ∧
    (l2norm [(0 : ℝ)] = 0 ∧ normalizeEmbedding [(0 : ℝ)] = [(0 : ℝ)]) := by
  have h34 : 0 < l2norm [(3 : ℝ), 4] := by
    rw [l2norm]
    apply Real.sqrt_pos.mpr
    simp only [List.map_cons, List.map_nil, List.sum_cons, List.sum_nil]
    norm_num
  have h0 : l2norm [(0 : ℝ)] = 0 := by
    rw [l2norm]
    simp
  exact ⟨⟨h34, (normalize_embedding_unit_norm [(3 : ℝ), 4]).1 h34⟩,
         ⟨h0, (normalize_embedding_unit_norm [(0 : ℝ)]).2 h0⟩⟩

/-- C7: `normalize_url` maps `http://a.com/x/?utm_source=y` and
`https://a.com/x?utm_source=z` to the same string `https://a.com/x`:
http becomes https, the trailing slash is stripped, the `utm_`-prefixed
query parameter is dropped, and the fragment is dropped. -/
theorem normalize_url_dedupe :
    normalize_url "http://a.com/x/?utm_source=y" = "https://a.com/x" ∧
    normalize_url "https://a.com/x?utm_source=z" = "https://a.com/x" := by
  constructor
  · rfl
  · rfl

end InstantRag
